import Mathlib

/-
Verification of the `articulated_franka` thin ROS client, file
`packages/articulated/src/articulated_franka/robot.py` (class
`ImpedanceRegulation`).

Shallow embedding conventions:
* Goal statuses are the integer codes of `actionlib_msgs.msg.GoalStatus`
  as returned by `SimpleActionClient.get_state()`.
* `time.time() - t0` readings are modelled by an abstract map
  `elapsed : Nat -> Rat` giving the reading at the k-th timeout check of a
  polling loop; the stream of `get_state()` results is `statuses : Nat -> Nat`.
* Python exceptions become `Except` errors (for the pure config building)
  or outcome constructors (for the polling methods); the remote calls a
  method performs are recorded in an event trace, in order, so that claims
  about "no request sent" and "cancel before raise" are statements about
  the trace.
* Numeric values are Rat; `None` arguments are `Option.none`;
  `np.array(None)` stored in a message field is modelled as the field
  staying `none`.
-/

/- Integer goal-status codes of the external `actionlib_msgs.msg.GoalStatus`
contract, as read by `get_state`. -/
namespace GoalStatus

def PENDING : Nat := 0

def ACTIVE : Nat := 1

def PREEMPTED : Nat := 2

def SUCCEEDED : Nat := 3

def ABORTED : Nat := 4

def REJECTED : Nat := 5

def LOST : Nat := 9

end GoalStatus

/-- Python exceptions that `_fill_in_config` can raise: `assert` failures and
the `TypeError` from `len(None)`. -/
inductive PyError where
  | assertionError (msg : String)
  | typeError (msg : String)
  deriving DecidableEq

/-- The wire payload built by `_fill_in_config` (fields of
`articulated.msg.RegulateEeConfig`). An unset gain (Python `None`, stored as
`np.array(None)`) is `none`. -/
structure Config where
  o_T_ee_desired : List ℚ
  stiffness : Option (List ℚ)
  damping : Option (List ℚ)
  ee_control_force_bound : ℚ
  ee_control_torque_bound : ℚ
  deriving DecidableEq

/-- Row-major flattening of a 4x4 matrix: `target_transform.flatten().tolist()`. -/
def flatten (M : Fin 4 → Fin 4 → ℚ) : List ℚ :=
  (List.finRange 4).flatMap fun i => (List.finRange 4).map fun j => M i j

/-- The hardcoded stiffness written at robot.py line 108. -/
def stiffnessDefault : List ℚ := [150, 150, 150, 10, 10, 10]

/-- The hardcoded damping written at robot.py line 111. -/
def dampingDefault : List ℚ := [30, 30, 30, 8, 8, 8]

/-- Embedding of `ImpedanceRegulation._fill_in_config` (robot.py 97-116).
Faithful details: a supplied stiffness is length-checked and then replaced by
`stiffnessDefault`; the second `assert` (line 110) reads `len(stiffness)` --
the possibly rebound stiffness variable, NOT the damping argument -- so a
supplied damping is never length-checked, and when stiffness is unset the
check is `len(None)`, a `TypeError`. -/
def fill_in_config (target_transform : Fin 4 → Fin 4 → ℚ)
    (stiffness damping : Option (List ℚ))
    (ee_control_force_bound ee_control_torque_bound : ℚ) :
    Except PyError Config := do
  let stiffness ←
    match stiffness with
    | none => pure (none : Option (List ℚ))
    | some s =>
      if s.length = 6 then pure (some stiffnessDefault)
      else throw (PyError.assertionError "Stiffness dimension does not match")
  let damping ←
    match damping with
    | none => pure (none : Option (List ℚ))
    | some _ =>
      match stiffness with
      | none => throw (PyError.typeError "object of type NoneType has no len")
      | some s =>
        if s.length = 6 then pure (some dampingDefault)
        else throw (PyError.assertionError "Damping dimension does not match")
  pure
    { o_T_ee_desired := flatten target_transform
      stiffness := stiffness
      damping := damping
      ee_control_force_bound := ee_control_force_bound
      ee_control_torque_bound := ee_control_torque_bound }

/-- Embedding of `set_ee` (robot.py 44-62): builds the request config (the
prior `req.config.o_T_ee_desired` assignment on line 53 is overwritten inside
`_fill_in_config`) and sends it once; `Except.ok c` means the config `c` was
sent to the `set_regulate_ee_config` endpoint, `Except.error` means the call
raised before any request was sent. -/
def set_ee (target_transform : Fin 4 → Fin 4 → ℚ)
    (stiffness damping : Option (List ℚ))
    (ee_control_force_bound ee_control_torque_bound : ℚ) :
    Except PyError Config :=
  fill_in_config target_transform stiffness damping
    ee_control_force_bound ee_control_torque_bound

/-- Embedding of `is_idle` (robot.py 30-37) over the integer status code
reported by `get_state`. -/
def is_idle (state : Nat) : Bool :=
  state == GoalStatus.SUCCEEDED || state == GoalStatus.PREEMPTED ||
    state == GoalStatus.ABORTED || state == GoalStatus.LOST

/-- Embedding of `get_ee_transform` (robot.py 39-42) as a function of the
response payload `res.o_T_ee`: `np.array(res.o_T_ee).reshape(4, 4)` is the
row-major reshape, defined when the payload has exactly 16 entries. -/
def get_ee_transform (o_T_ee : List ℚ) : Option (Fin 4 → Fin 4 → ℚ) :=
  if h : o_T_ee.length = 16 then
    some fun i j =>
      o_T_ee.get ⟨4 * i.val + j.val, by have hi := i.isLt; have hj := j.isLt; omega⟩
  else none

/-- The remote calls a polling method performs, in order. -/
inductive Event where
  | waitForServer (duration : ℚ)
  | sendGoal (config : Config)
  | cancelGoal
  deriving DecidableEq

/-- How a `regulate_ee` run ends; each error constructor is one of the
`RuntimeError`s raised in robot.py 64-95, `configError` is an exception
escaping `_fill_in_config`, and `ok` is a normal return. -/
inductive RegOutcome where
  | connTimeout
  | configError (e : PyError)
  | submissionTimeout
  | goalAborted (status : String)
  | ok
  deriving DecidableEq

/-- The transport environment a run observes: whether `wait_for_server`
returns within its window, the stream of `get_state` readings (indexed by
call number, 0 = the read before the loop for `regulate_ee`, resp. the
initial `is_idle` read for `stop`), the elapsed-time reading at each timeout
check, and the `result.status` payload the server reports on abort. -/
structure Env where
  serverUp : Bool
  statuses : Nat → Nat
  elapsed : Nat → ℚ
  resultStatus : String

/-- Result of the PENDING-polling loop of `regulate_ee`. -/
inductive LoopRes where
  | timeout
  | exited (state : Nat)
  deriving DecidableEq

/-- The `while state == GoalStatus.PENDING` loop of robot.py 87-92, with
explicit fuel (`none` = still looping after `fuel` iterations). One
iteration: if the current state is PENDING, fetch the next state, sleep, and
check the clock -- the timeout check fires based on the clock alone, even if
the state just fetched is no longer PENDING, because the loop condition is
only re-tested afterwards. -/
def pollLoop (statuses : Nat → Nat) (elapsed : Nat → ℚ) :
    Nat → Nat → Nat → Option LoopRes
  | state, _, 0 =>
    if state = GoalStatus.PENDING then none else some (LoopRes.exited state)
  | state, i, fuel + 1 =>
    if state = GoalStatus.PENDING then
      if 10 < elapsed (i + 1) then some LoopRes.timeout
      else pollLoop statuses elapsed (statuses (i + 1)) (i + 1) fuel
    else some (LoopRes.exited state)

/-- Embedding of `regulate_ee` (robot.py 64-95): wait for the action server
(3 time units), build the goal config, send it, poll while PENDING, cancel
and fail on the 10-unit submission timeout, fail carrying `result.status` if
the observed state is ABORTED, otherwise return. The trace records the
remote calls in order. -/
def regulate_ee (env : Env) (target_transform : Fin 4 → Fin 4 → ℚ)
    (stiffness damping : Option (List ℚ))
    (ee_control_force_bound ee_control_torque_bound : ℚ) (fuel : Nat) :
    List Event × Option RegOutcome :=
  if env.serverUp then
    match fill_in_config target_transform stiffness damping
        ee_control_force_bound ee_control_torque_bound with
    | Except.error e => ([Event.waitForServer 3], some (RegOutcome.configError e))
    | Except.ok c =>
      match pollLoop env.statuses env.elapsed (env.statuses 0) 0 fuel with
      | none => ([Event.waitForServer 3, Event.sendGoal c], none)
      | some LoopRes.timeout =>
        ([Event.waitForServer 3, Event.sendGoal c, Event.cancelGoal],
          some RegOutcome.submissionTimeout)
      | some (LoopRes.exited s) =>
        if s = GoalStatus.ABORTED then
          ([Event.waitForServer 3, Event.sendGoal c],
            some (RegOutcome.goalAborted env.resultStatus))
        else ([Event.waitForServer 3, Event.sendGoal c], some RegOutcome.ok)
  else ([Event.waitForServer 3], some RegOutcome.connTimeout)

/-- Result of the not-idle polling loop of `stop`. -/
inductive StopRes where
  | stopped
  | timeout
  deriving DecidableEq

/-- How a `stop` run ends. -/
inductive StopOutcome where
  | ok
  | stopTimeout
  deriving DecidableEq

/-- The `while not self.is_idle()` loop of robot.py 124-127 with explicit
fuel: test idleness at reading `i`; if not idle, sleep and check the clock
reading `elapsed i`; raise on `3 <` that reading, else continue. -/
def stopLoop (statuses : Nat → Nat) (elapsed : Nat → ℚ) : Nat → Nat → Option StopRes
  | _, 0 => none
  | i, fuel + 1 =>
    if is_idle (statuses i) then some StopRes.stopped
    else if 3 < elapsed i then some StopRes.timeout
    else stopLoop statuses elapsed (i + 1) fuel

/-- Embedding of `stop` (robot.py 118-127): return immediately when already
idle, otherwise cancel the goal once and poll `is_idle` until idle or the
3-unit stop timeout. -/
def stop (env : Env) (fuel : Nat) : List Event × Option StopOutcome :=
  if is_idle (env.statuses 0) then ([], some StopOutcome.ok)
  else
    match stopLoop env.statuses env.elapsed 1 fuel with
    | none => ([Event.cancelGoal], none)
    | some StopRes.stopped => ([Event.cancelGoal], some StopOutcome.ok)
    | some StopRes.timeout => ([Event.cancelGoal], some StopOutcome.stopTimeout)

/-! ## Configuration building: claims C1, C2, C9, C10 -/

/-- Case lemma: neither gain supplied. -/
theorem fill_in_config_none_none (target_transform : Fin 4 → Fin 4 → ℚ) (fb tb : ℚ) :
    fill_in_config target_transform none none fb tb =
      Except.ok
        { o_T_ee_desired := flatten target_transform
          stiffness := none
          damping := none
          ee_control_force_bound := fb
          ee_control_torque_bound := tb } := rfl

/-- Case lemma: damping supplied, stiffness unset: `len(None)` raises. -/
theorem fill_in_config_none_some (target_transform : Fin 4 → Fin 4 → ℚ)
    (d : List ℚ) (fb tb : ℚ) :
    fill_in_config target_transform none (some d) fb tb =
      Except.error (PyError.typeError "object of type NoneType has no len") := rfl

/-- Case lemma: length-6 stiffness supplied, damping unset. -/
theorem fill_in_config_some_none (target_transform : Fin 4 → Fin 4 → ℚ)
    (s : List ℚ) (fb tb : ℚ) (hs : s.length = 6) :
    fill_in_config target_transform (some s) none fb tb =
      Except.ok
        { o_T_ee_desired := flatten target_transform
          stiffness := some stiffnessDefault
          damping := none
          ee_control_force_bound := fb
          ee_control_torque_bound := tb } := by
  simp [fill_in_config, hs]
  rfl

/-- Case lemma: stiffness of length other than 6 fails its assert. -/
theorem fill_in_config_bad_stiffness (target_transform : Fin 4 → Fin 4 → ℚ)
    (s : List ℚ) (damping : Option (List ℚ)) (fb tb : ℚ) (hs : ¬s.length = 6) :
    fill_in_config target_transform (some s) damping fb tb =
      Except.error (PyError.assertionError "Stiffness dimension does not match") := by
  cases damping <;> · simp [fill_in_config, hs]; rfl

/-- When a length-6 stiffness is supplied together with any damping, both
gains come out as the hardcoded defaults: the second `assert` re-reads the
rebound stiffness (length 6 by construction), so the damping argument is
never length-checked. -/
theorem fill_in_config_both_supplied (target_transform : Fin 4 → Fin 4 → ℚ)
    (s d : List ℚ) (fb tb : ℚ) (hs : s.length = 6) :
    fill_in_config target_transform (some s) (some d) fb tb =
      Except.ok
        { o_T_ee_desired := flatten target_transform
          stiffness := some stiffnessDefault
          damping := some dampingDefault
          ee_control_force_bound := fb
          ee_control_torque_bound := tb } := by
  simp [fill_in_config, hs, stiffnessDefault]
  rfl

/-- Claim C1 is violated by the code: a call with a valid length-6 stiffness
and a damping of length 3 raises no error at all -- line 110 asserts
`len(stiffness) == 6` instead of `len(damping) == 6` -- and the request is
built (with damping silently replaced by the defaults) and sent. -/
theorem c1_bad_damping_length_not_rejected :
    fill_in_config (fun _ _ => 0) (some [0, 0, 0, 0, 0, 0]) (some [1, 2, 3]) 50 4 =
      Except.ok
        { o_T_ee_desired := List.replicate 16 0
          stiffness := some stiffnessDefault
          damping := some dampingDefault
          ee_control_force_bound := 50
          ee_control_torque_bound := 4 } := by
  rfl

/-- Claim C2: whenever the caller supplies a length-6 stiffness and a
length-6 damping, whatever their values, the config that is sent (via
`set_ee`, and as the goal payload of `regulate_ee`) carries the fixed
stiffness `[150,150,150,10,10,10]` and damping `[30,30,30,8,8,8]`. -/
theorem c2_defaults_substituted (target_transform : Fin 4 → Fin 4 → ℚ)
    (s d : List ℚ) (fb tb : ℚ) (env : Env) (fuel : Nat)
    (hs : s.length = 6) (hd : d.length = 6) :
    set_ee target_transform (some s) (some d) fb tb =
      Except.ok
        { o_T_ee_desired := flatten target_transform
          stiffness := some stiffnessDefault
          damping := some dampingDefault
          ee_control_force_bound := fb
          ee_control_torque_bound := tb } ∧
    (env.serverUp = true →
      Event.sendGoal
        { o_T_ee_desired := flatten target_transform
          stiffness := some stiffnessDefault
          damping := some dampingDefault
          ee_control_force_bound := fb
          ee_control_torque_bound := tb } ∈
        (regulate_ee env target_transform (some s) (some d) fb tb fuel).1) := by
  have hfill := fill_in_config_both_supplied target_transform s d fb tb hs
  refine ⟨hfill, fun hup => ?_⟩
  rcases hp : pollLoop env.statuses env.elapsed (env.statuses 0) 0 fuel with _ | r
  · simp [regulate_ee, hup, hfill, hp]
  · rcases r with _ | st
    · simp [regulate_ee, hup, hfill, hp]
    · by_cases hab : st = GoalStatus.ABORTED <;>
        simp [regulate_ee, hup, hfill, hp, hab]

def envActive : Env :=
  { serverUp := true
    statuses := fun _ => GoalStatus.ACTIVE
    elapsed := fun _ => 0
    resultStatus := "" }

theorem c2_witness :
    set_ee (fun _ _ => 0) (some [1, 2, 3, 4, 5, 6]) (some [9, 9, 9, 9, 9, 9]) 50 4 =
      Except.ok
        { o_T_ee_desired := flatten (fun _ _ => 0)
          stiffness := some stiffnessDefault
          damping := some dampingDefault
          ee_control_force_bound := 50
          ee_control_torque_bound := 4 } ∧
    Event.sendGoal
      { o_T_ee_desired := flatten (fun _ _ => 0)
        stiffness := some stiffnessDefault
        damping := some dampingDefault
        ee_control_force_bound := 50
        ee_control_torque_bound := 4 } ∈
      (regulate_ee envActive (fun _ _ => 0) (some [1, 2, 3, 4, 5, 6])
        (some [9, 9, 9, 9, 9, 9]) 50 4 1).1 := by
  have h := c2_defaults_substituted (fun _ _ => 0) [1, 2, 3, 4, 5, 6]
    [9, 9, 9, 9, 9, 9] 50 4 envActive 1 (by decide) (by decide)
  exact ⟨h.1, h.2 rfl⟩

/-- Claim C9: supplying a damping (of any length) while stiffness is unset
makes `_fill_in_config` evaluate `len(None)`, a `TypeError`, before any
request or goal is sent: `set_ee` raises instead of calling the config
endpoint, and `regulate_ee` raises after the server wait but before
`send_goal`, so no `sendGoal` event ever appears in its trace. -/
theorem c9_unset_stiffness_type_error (target_transform : Fin 4 → Fin 4 → ℚ)
    (d : List ℚ) (fb tb : ℚ) (env : Env) (fuel : Nat) :
    set_ee target_transform none (some d) fb tb =
      Except.error (PyError.typeError "object of type NoneType has no len") ∧
    (env.serverUp = true →
      regulate_ee env target_transform none (some d) fb tb fuel =
        ([Event.waitForServer 3],
          some (RegOutcome.configError
            (PyError.typeError "object of type NoneType has no len")))) ∧
    ∀ c, Event.sendGoal c ∉ (regulate_ee env target_transform none (some d) fb tb fuel).1 := by
  have hfill := fill_in_config_none_some target_transform d fb tb
  refine ⟨hfill, fun hup => ?_, fun c hc => ?_⟩
  · simp [regulate_ee, hup, hfill]
  · by_cases hsu : env.serverUp <;> simp [regulate_ee, hsu, hfill] at hc

theorem c9_witness :
    set_ee (fun _ _ => 0) none (some [1, 2, 3, 4, 5, 6]) 50 4 =
      Except.error (PyError.typeError "object of type NoneType has no len") ∧
    regulate_ee envActive (fun _ _ => 0) none (some [1, 2, 3, 4, 5, 6]) 50 4 1 =
      ([Event.waitForServer 3],
        some (RegOutcome.configError
          (PyError.typeError "object of type NoneType has no len"))) := by
  have h := c9_unset_stiffness_type_error (fun _ _ => 0) [1, 2, 3, 4, 5, 6]
    50 4 envActive 1
  exact ⟨h.1, h.2.1 rfl⟩

/-- Claim C10: the hardcoded gains are substituted only for supplied
arguments -- whenever `_fill_in_config` returns without raising, an unset
stiffness (resp. damping) argument comes through as the unset (`None`)
field, never as the defaults. -/
theorem c10_unset_gains_stay_unset (target_transform : Fin 4 → Fin 4 → ℚ)
    (stiffness damping : Option (List ℚ)) (fb tb : ℚ) (c : Config)
    (h : fill_in_config target_transform stiffness damping fb tb = Except.ok c) :
    (stiffness = none → c.stiffness = none) ∧ (damping = none → c.damping = none) := by
  constructor
  · rintro rfl
    cases damping with
    | none =>
      rw [fill_in_config_none_none] at h
      injection h with h
      rw [← h]
    | some d =>
      rw [fill_in_config_none_some] at h
      exact Except.noConfusion h
  · rintro rfl
    cases stiffness with
    | none =>
      rw [fill_in_config_none_none] at h
      injection h with h
      rw [← h]
    | some s =>
      by_cases hs : s.length = 6
      · rw [fill_in_config_some_none target_transform s fb tb hs] at h
        injection h with h
        rw [← h]
      · rw [fill_in_config_bad_stiffness target_transform s none fb tb hs] at h
        exact Except.noConfusion h

theorem c10_witness :
    ({ o_T_ee_desired := flatten (fun _ _ => 0)
       stiffness := none
       damping := none
       ee_control_force_bound := 50
       ee_control_torque_bound := 4 } : Config).stiffness = none ∧
    ({ o_T_ee_desired := flatten (fun _ _ => 0)
       stiffness := none
       damping := none
       ee_control_force_bound := 50
       ee_control_torque_bound := 4 } : Config).damping = none := by
  have h := c10_unset_gains_stay_unset (fun _ _ => 0) none none 50 4 _ rfl
  exact ⟨h.1 rfl, h.2 rfl⟩

/-! ## Goal submission: claims C3, C4, C5 -/

/-- If the status stream stays PENDING up to poll `m` and the clock reading
at check `m` exceeds 10, the submission loop times out (possibly at an
earlier check whose reading already exceeded 10). -/
theorem pollLoop_timeout (statuses : Nat → Nat) (elapsed : Nat → ℚ) :
    ∀ fuel i m, i < m → m ≤ i + fuel →
      (∀ j, i ≤ j → j < m → statuses j = GoalStatus.PENDING) →
      10 < elapsed m →
      pollLoop statuses elapsed (statuses i) i fuel = some LoopRes.timeout := by
  intro fuel
  induction fuel with
  | zero => intro i m him hm _ _; omega
  | succ fuel ih =>
    intro i m him hm hpend hel
    have hpi : statuses i = GoalStatus.PENDING := hpend i le_rfl him
    simp only [pollLoop]
    rw [if_pos hpi]
    by_cases h10 : 10 < elapsed (i + 1)
    · rw [if_pos h10]
    · rw [if_neg h10]
      have hlt : i + 1 < m := by
        rcases Nat.lt_or_ge (i + 1) m with h | h
        · exact h
        · have hmeq : m = i + 1 := by omega
          rw [hmeq] at hel
          exact absurd hel h10
      exact ih (i + 1) m hlt (by omega) (fun j hj1 hj2 => hpend j (by omega) hj2) hel

/-- If the status stream is PENDING at every poll before `k`, every clock
check through `k` reads at most 10, and poll `k` is not PENDING, the
submission loop exits with the status observed at poll `k`. -/
theorem pollLoop_exit (statuses : Nat → Nat) (elapsed : Nat → ℚ) :
    ∀ fuel i k, k ≤ fuel →
      (∀ j, j < k → statuses (i + j) = GoalStatus.PENDING) →
      (∀ j, 1 ≤ j → j ≤ k → elapsed (i + j) ≤ 10) →
      statuses (i + k) ≠ GoalStatus.PENDING →
      pollLoop statuses elapsed (statuses i) i fuel =
        some (LoopRes.exited (statuses (i + k))) := by
  intro fuel
  induction fuel with
  | zero =>
    intro i k hk _ _ hexit
    have hk0 : k = 0 := by omega
    subst hk0
    have h0 : statuses i ≠ GoalStatus.PENDING := by simpa using hexit
    simp only [pollLoop]
    rw [if_neg h0]
    rfl
  | succ fuel ih =>
    intro i k hk hpend helap hexit
    cases k with
    | zero =>
      have h0 : statuses i ≠ GoalStatus.PENDING := by simpa using hexit
      simp only [pollLoop]
      rw [if_neg h0]
      rfl
    | succ k =>
      have hpi : statuses i = GoalStatus.PENDING := by
        have := hpend 0 (Nat.succ_pos k)
        simpa using this
      have h1 : elapsed (i + 1) ≤ 10 := helap 1 le_rfl (by omega)
      simp only [pollLoop]
      rw [if_pos hpi, if_neg (not_lt.mpr h1)]
      have hrec := ih (i + 1) k (by omega)
        (fun j hj => by
          have := hpend (j + 1) (by omega)
          rwa [show i + (j + 1) = i + 1 + j by omega] at this)
        (fun j hj1 hj2 => by
          have := helap (j + 1) (by omega) (by omega)
          rwa [show i + (j + 1) = i + 1 + j by omega] at this)
        (by
          have := hexit
          rwa [show i + (k + 1) = i + 1 + k by omega] at this)
      rwa [show i + 1 + k = i + (k + 1) by omega] at hrec

/-- Claim C4: when the goal status stays PENDING at every poll through `k`
and the clock check at poll `k` reads more than 10, `regulate_ee` cancels
the goal and then raises the submission-timeout error: the trace ends with
the `cancelGoal` call, issued before the raise that produces the
`submissionTimeout` outcome. -/
theorem c4_submission_timeout_cancel_then_raise (env : Env)
    (target_transform : Fin 4 → Fin 4 → ℚ) (stiffness damping : Option (List ℚ))
    (fb tb : ℚ) (fuel k : Nat) (c : Config)
    (hup : env.serverUp = true)
    (hfill : fill_in_config target_transform stiffness damping fb tb = Except.ok c)
    (hk : 1 ≤ k) (hfuel : k ≤ fuel)
    (hpend : ∀ j, j ≤ k → env.statuses j = GoalStatus.PENDING)
    (hel : 10 < env.elapsed k) :
    regulate_ee env target_transform stiffness damping fb tb fuel =
      ([Event.waitForServer 3, Event.sendGoal c, Event.cancelGoal],
        some RegOutcome.submissionTimeout) := by
  have hloop := pollLoop_timeout env.statuses env.elapsed fuel 0 k (by omega) (by omega)
    (fun j _ hj2 => hpend j (by omega)) hel
  simp [regulate_ee, hup, hfill, hloop]

def envPendingSlow : Env :=
  { serverUp := true
    statuses := fun _ => GoalStatus.PENDING
    elapsed := fun _ => 11
    resultStatus := "" }

theorem c4_witness :
    regulate_ee envPendingSlow (fun _ _ => 0) none none 50 4 1 =
      ([Event.waitForServer 3,
        Event.sendGoal
          { o_T_ee_desired := flatten (fun _ _ => 0)
            stiffness := none
            damping := none
            ee_control_force_bound := 50
            ee_control_torque_bound := 4 },
        Event.cancelGoal], some RegOutcome.submissionTimeout) :=
  c4_submission_timeout_cancel_then_raise envPendingSlow (fun _ _ => 0) none none
    50 4 1 1 _ rfl (fill_in_config_none_none (fun _ _ => 0) 50 4) le_rfl le_rfl
    (fun _ _ => rfl) (by norm_num [envPendingSlow])

/-- Claim C3 (amended): provided every submission-timeout clock check up to
and including the poll that first observes a non-PENDING status reads at
most 10, `regulate_ee` raises the goal-aborted error carrying
`result.status` when that first non-PENDING status is ABORTED, and returns
normally (no cancel, one goal sent) when it is ACTIVE, SUCCEEDED, PREEMPTED
or LOST. The proviso is forced by the code: the clock check of robot.py
line 90 runs after the fresh status is fetched, so an expired window at
that same iteration raises the submission timeout instead (see the
counterexample). -/
theorem c3_first_nonpending_dispatch (env : Env)
    (target_transform : Fin 4 → Fin 4 → ℚ) (stiffness damping : Option (List ℚ))
    (fb tb : ℚ) (fuel k : Nat) (c : Config)
    (hup : env.serverUp = true)
    (hfill : fill_in_config target_transform stiffness damping fb tb = Except.ok c)
    (hfuel : k ≤ fuel)
    (hpend : ∀ j, j < k → env.statuses j = GoalStatus.PENDING)
    (helap : ∀ j, 1 ≤ j → j ≤ k → env.elapsed j ≤ 10)
    (hexit : env.statuses k ≠ GoalStatus.PENDING) :
    (env.statuses k = GoalStatus.ABORTED →
      regulate_ee env target_transform stiffness damping fb tb fuel =
        ([Event.waitForServer 3, Event.sendGoal c],
          some (RegOutcome.goalAborted env.resultStatus))) ∧
    (env.statuses k ∈
        [GoalStatus.ACTIVE, GoalStatus.SUCCEEDED, GoalStatus.PREEMPTED, GoalStatus.LOST] →
      regulate_ee env target_transform stiffness damping fb tb fuel =
        ([Event.waitForServer 3, Event.sendGoal c], some RegOutcome.ok)) := by
  have hloop := pollLoop_exit env.statuses env.elapsed fuel 0 k hfuel
    (fun j hj => by simpa using hpend j hj)
    (fun j hj1 hj2 => by simpa using helap j hj1 hj2)
    (by simpa using hexit)
  simp only [Nat.zero_add] at hloop
  constructor
  · intro hab
    simp [regulate_ee, hup, hfill, hloop, hab]
  · intro hmem
    have hne : env.statuses k ≠ GoalStatus.ABORTED := by
      simp only [List.mem_cons, List.not_mem_nil, or_false] at hmem
      rcases hmem with h | h | h | h <;> · rw [h]; decide
    simp [regulate_ee, hup, hfill, hloop, hne]

def envAbort : Env :=
  { serverUp := true
    statuses := fun j => if j = 0 then GoalStatus.PENDING else GoalStatus.ABORTED
    elapsed := fun _ => 1
    resultStatus := "server aborted the goal" }

theorem c3_witness :
    regulate_ee envAbort (fun _ _ => 0) none none 50 4 2 =
      ([Event.waitForServer 3,
        Event.sendGoal
          { o_T_ee_desired := flatten (fun _ _ => 0)
            stiffness := none
            damping := none
            ee_control_force_bound := 50
            ee_control_torque_bound := 4 }],
        some (RegOutcome.goalAborted "server aborted the goal")) :=
  (c3_first_nonpending_dispatch envAbort (fun _ _ => 0) none none 50 4 2 1 _
    rfl (fill_in_config_none_none (fun _ _ => 0) 50 4) (by omega)
    (fun j hj => by interval_cases j <;> rfl)
    (fun j hj1 hj2 => by interval_cases j <;> norm_num [envAbort])
    (by decide)).1 (by decide)

def envC3 : Env :=
  { serverUp := true
    statuses := fun j => if j = 0 then GoalStatus.PENDING else GoalStatus.SUCCEEDED
    elapsed := fun _ => 11
    resultStatus := "" }

/-- Claim C3 as literally stated is false on the code: in this run the first
observed non-PENDING status is SUCCEEDED (poll 1), yet `regulate_ee` does
not return normally -- the clock check of the same loop iteration reads 11,
so the goal is cancelled and the submission-timeout error is raised. -/
theorem c3_counterexample :
    envC3.statuses 0 = GoalStatus.PENDING ∧
    envC3.statuses 1 = GoalStatus.SUCCEEDED ∧
    regulate_ee envC3 (fun _ _ => 0) none none 50 4 5 =
      ([Event.waitForServer 3,
        Event.sendGoal
          { o_T_ee_desired := flatten (fun _ _ => 0)
            stiffness := none
            damping := none
            ee_control_force_bound := 50
            ee_control_torque_bound := 4 },
        Event.cancelGoal], some RegOutcome.submissionTimeout) := by
  refine ⟨rfl, rfl, ?_⟩
  rfl

/-- Claim C5: when the action server is not reachable within the 3-unit
window `regulate_ee` raises the connection-timeout error with only the
server wait in its trace -- no goal is sent -- and conversely any run whose
trace contains a `sendGoal` had a successful server wait, performed first. -/
theorem c5_connection_timeout_no_goal (env : Env)
    (target_transform : Fin 4 → Fin 4 → ℚ) (stiffness damping : Option (List ℚ))
    (fb tb : ℚ) (fuel : Nat) :
    (env.serverUp = false →
      regulate_ee env target_transform stiffness damping fb tb fuel =
        ([Event.waitForServer 3], some RegOutcome.connTimeout)) ∧
    ∀ c, Event.sendGoal c ∈ (regulate_ee env target_transform stiffness damping fb tb fuel).1 →
      env.serverUp = true ∧
      (regulate_ee env target_transform stiffness damping fb tb fuel).1.head? =
        some (Event.waitForServer 3) := by
  constructor
  · intro hdown
    simp [regulate_ee, hdown]
  · intro c hc
    by_cases hsu : env.serverUp
    · refine ⟨hsu, ?_⟩
      rcases hfill : fill_in_config target_transform stiffness damping fb tb with e | cc
      · simp [regulate_ee, hsu, hfill]
      · rcases hp : pollLoop env.statuses env.elapsed (env.statuses 0) 0 fuel with _ | r
        · simp [regulate_ee, hsu, hfill, hp]
        · rcases r with _ | st
          · simp [regulate_ee, hsu, hfill, hp]
          · by_cases hab : st = GoalStatus.ABORTED <;>
              simp [regulate_ee, hsu, hfill, hp, hab]
    · rw [Bool.not_eq_true] at hsu
      simp [regulate_ee, hsu] at hc

def envDown : Env :=
  { serverUp := false
    statuses := fun _ => GoalStatus.PENDING
    elapsed := fun _ => 0
    resultStatus := "" }

theorem c5_witness :
    regulate_ee envDown (fun _ _ => 0) none none 50 4 1 =
      ([Event.waitForServer 3], some RegOutcome.connTimeout) :=
  (c5_connection_timeout_no_goal envDown (fun _ _ => 0) none none 50 4 1).1 rfl

/-! ## Pose query, idleness and stop: claims C6, C7, C8 -/

/-- Claim C6: on a 16-float pose payload, `get_ee_transform` is the
row-major 4x4 reshape: entry (i, j) is element `4*i + j` of the payload. -/
theorem c6_reshape_row_major (v : List ℚ) (h : v.length = 16) (i j : Fin 4) :
    ∃ M, get_ee_transform v = some M ∧
      M i j = v.get ⟨4 * i.val + j.val, by have hi := i.isLt; have hj := j.isLt; omega⟩ := by
  refine ⟨fun i j =>
    v.get ⟨4 * i.val + j.val, by have hi := i.isLt; have hj := j.isLt; omega⟩, ?_, rfl⟩
  unfold get_ee_transform
  rw [dif_pos h]

theorem c6_witness :
    ∃ M, get_ee_transform [0, 1, 2, 3, 4, 5, 6, 7, 8, 9, 10, 11, 12, 13, 14, 15] = some M ∧
      M 1 2 = 6 := by
  obtain ⟨M, h1, h2⟩ := c6_reshape_row_major
    [0, 1, 2, 3, 4, 5, 6, 7, 8, 9, 10, 11, 12, 13, 14, 15] (by decide) 1 2
  refine ⟨M, h1, ?_⟩
  rw [h2]
  rfl

/-- Claim C7: `is_idle` is true exactly on the statuses SUCCEEDED,
PREEMPTED, ABORTED, LOST; on PENDING, ACTIVE and any other reported code it
is false. -/
theorem c7_is_idle_iff (s : Nat) :
    (is_idle s = true ↔
      s = GoalStatus.SUCCEEDED ∨ s = GoalStatus.PREEMPTED ∨
        s = GoalStatus.ABORTED ∨ s = GoalStatus.LOST) ∧
    is_idle GoalStatus.PENDING = false ∧ is_idle GoalStatus.ACTIVE = false := by
  refine ⟨?_, rfl, rfl⟩
  simp [is_idle, Bool.or_eq_true, beq_iff_eq, or_assoc]

theorem c7_witness : is_idle 3 = true ∧ is_idle 5 = false := by
  constructor
  · exact (c7_is_idle_iff 3).1.mpr (Or.inl rfl)
  · cases hI : is_idle 5 with
    | false => rfl
    | true =>
      rcases (c7_is_idle_iff 5).1.mp hI with h | h | h | h <;>
        exact absurd h (by decide)

/-- If `is_idle` reads false at every poll from `i` through `m` and the
clock check at poll `m` reads more than 3, the stop loop times out
(possibly at an earlier check whose reading already exceeded 3). -/
theorem stopLoop_timeout (statuses : Nat → Nat) (elapsed : Nat → ℚ) :
    ∀ fuel i m, i ≤ m → m < i + fuel →
      (∀ j, i ≤ j → j ≤ m → is_idle (statuses j) = false) →
      3 < elapsed m →
      stopLoop statuses elapsed i fuel = some StopRes.timeout := by
  intro fuel
  induction fuel with
  | zero => intro i m h1 h2 _ _; omega
  | succ fuel ih =>
    intro i m him hm hidle hel
    have hi : is_idle (statuses i) = false := hidle i le_rfl him
    simp only [stopLoop]
    rw [if_neg (by simp [hi])]
    by_cases h3 : 3 < elapsed i
    · rw [if_pos h3]
    · rw [if_neg h3]
      have hlt : i < m := by
        rcases Nat.lt_or_ge i m with h | h
        · exact h
        · have hmi : m = i := by omega
          rw [hmi] at hel
          exact absurd hel h3
      exact ih (i + 1) m (by omega) (by omega) (fun j hj1 hj2 => hidle j (by omega) hj2) hel

/-- Claim C8: `stop` called while already idle returns at once with no
cancel in its trace; called while not idle it issues exactly one cancel,
and if `is_idle` stays false at every poll through `k` while the clock
check at poll `k` reads more than 3, it raises the stop-timeout error. -/
theorem c8_stop_noop_cancel_timeout (env : Env) (fuel : Nat) :
    (is_idle (env.statuses 0) = true → stop env fuel = ([], some StopOutcome.ok)) ∧
    (is_idle (env.statuses 0) = false →
      (stop env fuel).1.count Event.cancelGoal = 1 ∧
      ∀ k, 1 ≤ k → k ≤ fuel →
        (∀ j, 1 ≤ j → j ≤ k → is_idle (env.statuses j) = false) →
        3 < env.elapsed k →
        stop env fuel = ([Event.cancelGoal], some StopOutcome.stopTimeout)) := by
  constructor
  · intro h0
    simp [stop, h0]
  · intro h0
    have htr : (stop env fuel).1 = [Event.cancelGoal] := by
      rcases hm : stopLoop env.statuses env.elapsed 1 fuel with _ | r
      · simp [stop, h0, hm]
      · cases r <;> simp [stop, h0, hm]
    refine ⟨by rw [htr]; rfl, ?_⟩
    intro k hk1 hk2 hidle hel
    have hloop := stopLoop_timeout env.statuses env.elapsed fuel 1 k hk1 (by omega)
      (fun j hj1 hj2 => hidle j hj1 hj2) hel
    simp [stop, h0, hloop]

def envIdle : Env :=
  { serverUp := true
    statuses := fun _ => GoalStatus.SUCCEEDED
    elapsed := fun _ => 0
    resultStatus := "" }

def envStuck : Env :=
  { serverUp := true
    statuses := fun _ => GoalStatus.ACTIVE
    elapsed := fun _ => 4
    resultStatus := "" }

theorem c8_witness :
    stop envIdle 1 = ([], some StopOutcome.ok) ∧
    stop envStuck 2 = ([Event.cancelGoal], some StopOutcome.stopTimeout) := by
  constructor
  · exact (c8_stop_noop_cancel_timeout envIdle 1).1 rfl
  · exact ((c8_stop_noop_cancel_timeout envStuck 2).2 rfl).2 1 le_rfl (by omega)
      (fun _ _ _ => rfl) (by norm_num [envStuck])
